import Mathlib

/-!
Verification of the request pipeline of a minimal Go HTTP service template
(single-file server `main.go`): response recording, access logging, panic
recovery, and the two static handlers (health, openapi).

Bodies of HTTP responses are modelled as `String` (the source writes byte
slices; byte-for-byte equality corresponds to string equality and `len`
to `String.length`). HTTP status codes and byte counts are `Nat`.
-/

/-- An inbound HTTP request, with the fields the middleware reads
(`r.Method`, `r.URL.Path`, `r.URL.RawQuery`, `r.RemoteAddr`). -/
structure Request where
  method : String
  path : String
  query : String
  ip : String
  deriving DecidableEq, Repr

/-- Interface of Go's `http.ResponseWriter` as the handlers use it, over a
writer-state type `σ`: `write` returns the new state plus the `(n, err)`
pair the writer reports; `writeHeader` writes the status line; `setHeader`
and `delHeader` model mutations of the header map obtained from `Header()`. -/
structure GoWriter (σ : Type) where
  write : σ → String → σ × Nat × Option String
  writeHeader : σ → Nat → σ
  setHeader : σ → String → String → σ
  delHeader : σ → String → σ

/-- Replace the value bound to key `k` in an association list, appending the
pair when the key is absent. -/
def setAssoc : List (String × String) → String → String → List (String × String)
  | [], k, v => [(k, v)]
  | (k', v') :: rest, k, v =>
      if k' = k then (k, v) :: rest else (k', v') :: setAssoc rest k v

/-- Remove the binding for key `k` from an association list. -/
def delAssoc : List (String × String) → String → List (String × String)
  | [], _ => []
  | (k', v') :: rest, k => if k' = k then rest else (k', v') :: delAssoc rest k

/-- Look up key `k` in an association list. -/
def getAssoc : List (String × String) → String → Option String
  | [], _ => none
  | (k', v') :: rest, k => if k' = k then some v' else getAssoc rest k

/-- The server transport underneath the middleware chain, as the net/http
`ResponseWriter` behaves on the wire: `committed` is the status line sent to
the client (`none` until the first commit), `body` the bytes sent after it,
`headers` the header set that was in force at commit time. -/
structure BaseWriter where
  committed : Option Nat := none
  body : String := ""
  headers : List (String × String) := []
  deriving DecidableEq, Repr

/-- A fresh transport writer for a new request. -/
def emptyBase : BaseWriter := {}

/-- net/http transport semantics: the first `WriteHeader` commits the status
and further calls are superfluous and ignored; a `Write` before any
`WriteHeader` auto-commits status 200; header-map mutations after the commit
no longer affect what was sent. Writes to the transport report
`(len(b), nil)`. -/
def baseW : GoWriter BaseWriter where
  write s b :=
    let s := if s.committed = none then { s with committed := some 200 } else s
    ({ s with body := s.body ++ b }, b.length, none)
  writeHeader s c :=
    if s.committed = none then { s with committed := some c } else s
  setHeader s k v :=
    if s.committed = none then { s with headers := setAssoc s.headers k v } else s
  delHeader s k :=
    if s.committed = none then { s with headers := delAssoc s.headers k } else s

/-- The `responseRecorder` struct of the source: the `status` and `numBytes`
fields it adds to the embedded `ResponseWriter` (`status` zero means not yet
set, as a Go zero value). -/
structure ResponseRecorder where
  status : Nat := 0
  numBytes : Nat := 0
  deriving DecidableEq, Repr

/-- The `responseRecorder` methods of the source, wrapping an underlying
writer `W`: `Write` adds `len(b)` to `numBytes`, delegates, and returns the
underlying result unmodified; `WriteHeader` stores the code into `status`
(unconditionally) and delegates; `Header()` access delegates unchanged. -/
def recorderW {σ : Type} (W : GoWriter σ) : GoWriter (ResponseRecorder × σ) where
  write s b :=
    let r := W.write s.2 b
    (({ s.1 with numBytes := s.1.numBytes + b.length }, r.1), r.2)
  writeHeader s c := ({ s.1 with status := c }, W.writeHeader s.2 c)
  setHeader s k v := (s.1, W.setHeader s.2 k v)
  delHeader s k := (s.1, W.delHeader s.2 k)

/-- One action a downstream handler performs on the response writer it was
handed. -/
inductive WOp where
  | writeHeader (code : Nat)
  | write (b : String)
  | setHeader (k v : String)
  deriving DecidableEq, Repr

/-- Apply one writer action. -/
def applyOp {σ : Type} (W : GoWriter σ) (s : σ) : WOp → σ
  | .writeHeader c => W.writeHeader s c
  | .write b => (W.write s b).1
  | .setHeader k v => W.setHeader s k v

/-- Run a sequence of writer actions. -/
def runOps {σ : Type} (W : GoWriter σ) (s : σ) (ops : List WOp) : σ :=
  ops.foldl (applyOp W) s

/-- Run a sequence of body writes, collecting each `(n, err)` result. -/
def writeAll {σ : Type} (W : GoWriter σ) (s : σ) (bs : List String) :
    σ × List (Nat × Option String) :=
  match bs with
  | [] => (s, [])
  | b :: rest =>
      let r := W.write s b
      let rest' := writeAll W r.1 rest
      (rest'.1, r.2 :: rest'.2)

/-- Go's `http.Error(w, msg, code)` from net/http: deletes Content-Length,
sets Content-Type and X-Content-Type-Options, writes the status line, then
writes the message followed by a newline. -/
def httpError {σ : Type} (W : GoWriter σ) (s : σ) (msg : String) (code : Nat) : σ :=
  let s := W.delHeader s "Content-Length"
  let s := W.setHeader s "Content-Type" "text/plain; charset=utf-8"
  let s := W.setHeader s "X-Content-Type-Options" "nosniff"
  let s := W.writeHeader s code
  (W.write s (msg ++ "\x0a")).1

/-- A value a handler panics with: the sentinel `http.ErrAbortHandler`, or
any other value carried as its `fmt` string form. -/
inductive PanicValue where
  | errAbortHandler
  | other (msg : String)
  deriving DecidableEq, Repr

/-- A downstream handler, abstracted as the sequence of writer actions it
performs followed by how it terminates (`none` = normal return, otherwise the
panic value it raises after its writes). -/
structure Handler where
  ops : List WOp
  panics : Option PanicValue
  deriving DecidableEq, Repr

/-- One structured access-log line as `accesslog` emits it (latency omitted:
it is wall-clock data with no bearing on the recorded status/byte fields). -/
structure AccessRecord where
  method : String
  path : String
  query : String
  ip : String
  status : Nat
  numBytes : Nat
  deriving DecidableEq, Repr

/-- One error-level log event as `recovery` emits it on a non-sentinel panic:
the panic value's string form, whether a stack trace was captured, and the
request fields. -/
structure PanicRecord where
  err : String
  stackCaptured : Bool
  method : String
  path : String
  query : String
  ip : String
  deriving DecidableEq, Repr

/-- The writer a handler sees inside `recovery(accesslog(mux))`: the
`accesslog` recorder wraps the `recovery` recorder, which wraps the
transport, because `recovery` passes its own `&wr` down as the
`ResponseWriter` that `accesslog` then wraps. -/
abbrev chainW : GoWriter (ResponseRecorder × ResponseRecorder × BaseWriter) :=
  recorderW (recorderW baseW)

/-- State of the two recorders and the transport after the downstream handler
ran its writer actions: component 1 is the `accesslog` recorder, 2.1 the
`recovery` recorder, 2.2 the transport. Both recorders start as Go zero
values. -/
abbrev downstream (ops : List WOp) (b0 : BaseWriter) :
    ResponseRecorder × ResponseRecorder × BaseWriter :=
  runOps chainW (⟨0, 0⟩, ⟨0, 0⟩, b0) ops

/-- Result of one request through the full chain: final recorders, final
transport state, the access-log lines emitted by `accesslog`, and the
error-level panic logs emitted by `recovery`. -/
structure ChainResult where
  accessRec : ResponseRecorder
  recoveryRec : ResponseRecorder
  base : BaseWriter
  accessLogs : List AccessRecord
  panicLogs : List PanicRecord
  deriving DecidableEq, Repr

/-- One request through `recovery(accesslog(handler))`, the composition built
by `route`, with the two middleware bodies inlined so their per-request
recorders stay observable.
`recovery` makes recorder `wr` over the real writer and calls down;
`accesslog` makes its own recorder over that and calls the handler; the
handler runs its writer actions and returns or panics.
On the way out: `accesslog`'s log statement follows its plain
`next.ServeHTTP` call, so it runs only on normal return — a panic unwinds
past it and no access line is emitted. `recovery`'s deferred function then
recovers: the sentinel `http.ErrAbortHandler` returns silently; any other
value is logged with a captured stack, and if its recorder's `status` is
still 0 it emits `http.Error(w, fmt.Sprintf("%v", err), 500)` through the
original writer `w`, not through the recorder. -/
def processRequest (h : Handler) (req : Request) (b0 : BaseWriter) : ChainResult :=
  let s := downstream h.ops b0
  match h.panics with
  | none =>
      ⟨s.1, s.2.1, s.2.2,
        [⟨req.method, req.path, req.query, req.ip, s.1.status, s.1.numBytes⟩], []⟩
  | some .errAbortHandler => ⟨s.1, s.2.1, s.2.2, [], []⟩
  | some (.other msg) =>
      if s.2.1.status = 0 then
        ⟨s.1, s.2.1, httpError baseW s.2.2 msg 500, [],
          [⟨msg, true, req.method, req.path, req.query, req.ip⟩]⟩
      else
        ⟨s.1, s.2.1, s.2.2, [],
          [⟨msg, true, req.method, req.path, req.query, req.ip⟩]⟩

/-- The health response body assembled once by `handleGetHealth` before it
returns its closure. The `vcs.time` value is kept as the setting string (the
source parses it as RFC3339 and re-renders it in JSON; the claims under
verification do not depend on that re-rendering). -/
structure HealthBody where
  version : String
  revision : String
  time : String
  modified : Bool
  deriving DecidableEq, Repr

/-- The construction loop of `handleGetHealth`: start from zero values plus
the build-time `Version`, then fold over the build-info settings, skipping
empty values and keeping the relevant keys. -/
def buildHealthBody (version : String) (settings : List (String × String)) :
    HealthBody :=
  settings.foldl
    (fun res kv =>
      if kv.2 = "" then res
      else if kv.1 = "vcs.revision" then { res with revision := kv.2 }
      else if kv.1 = "vcs.time" then { res with time := kv.2 }
      else if kv.1 = "vcs.modified" then { res with modified := kv.2 == "true" }
      else res)
    { version := version, revision := "", time := "", modified := false }

/-- JSON rendering of the health body in struct-tag order, with the trailing
newline that `json.Encoder.Encode` appends (string escaping elided: build
metadata contains no characters needing escapes). -/
def encodeHealthBody (h : HealthBody) : String :=
  "\x7b\x22version\x22:\x22" ++ h.version
    ++ "\x22,\x22vcs.revision\x22:\x22" ++ h.revision
    ++ "\x22,\x22vcs.time\x22:\x22" ++ h.time
    ++ "\x22,\x22vcs.modified\x22:" ++ (if h.modified then "true" else "false")
    ++ "\x7d\x0a"

/-- The per-request body of the closure returned by `handleGetHealth`, with
the outcome of the JSON encode step as a parameter: set Content-Type, write
status 200, then either write the encoded body, or on an encode error call
`http.Error` with the error text and 500 (a failed `Encode` writes nothing
itself: it marshals to a buffer first). -/
def healthServe {σ : Type} (enc : Except String String) (W : GoWriter σ) (s : σ) : σ :=
  let s := W.setHeader s "Content-Type" "application/json"
  let s := W.writeHeader s 200
  match enc with
  | .ok body => (W.write s body).1
  | .error e => httpError W s e 500

/-- `handleGetHealth`: computes the response body once, at construction, from
the build-time version and build-info settings, and returns a serve function
that ignores the request and always writes that same encoded body (the encode
of this fixed struct succeeds). -/
def handleGetHealth {σ : Type} (version : String)
    (settings : List (String × String)) (W : GoWriter σ) : Request → σ → σ :=
  let res := buildHealthBody version settings
  fun _req s => healthServe (Except.ok (encodeHealthBody res)) W s

/-- `handleGetOpenapi`: serves the embedded OpenAPI document `blob` with
Content-Type text/plain, a permissive CORS header, status 200, and the blob
as the body (a write error is only logged, which does not change the writer
state). -/
def handleGetOpenapi {σ : Type} (blob : String) (W : GoWriter σ) :
    Request → σ → σ :=
  fun _req s =>
    let s := W.setHeader s "Content-Type" "text/plain"
    let s := W.setHeader s "Access-Control-Allow-Origin" "*"
    let s := W.writeHeader s 200
    (W.write s blob).1

/-- Status accumulated by a sequence of writer actions, starting from `d`:
each `writeHeader` overwrites, other actions leave it alone. -/
def statusStep (acc : Nat) : WOp → Nat
  | .writeHeader c => c
  | .write _ => acc
  | .setHeader _ _ => acc

/-- The last `writeHeader` code in `ops`, or `d` when there is none. -/
def lastStatusFrom (d : Nat) (ops : List WOp) : Nat :=
  ops.foldl statusStep d

/-- Whether one writer action is a `writeHeader` call. -/
def isStatusSet : WOp → Bool
  | .writeHeader _ => true
  | .write _ => false
  | .setHeader _ _ => false

/-- Whether a sequence of writer actions contains a `writeHeader` call. -/
def hasStatusSet : List WOp → Bool
  | [] => false
  | op :: rest => isStatusSet op || hasStatusSet rest

/-- Whether one writer action, if it is a `writeHeader`, carries a nonzero
code. -/
def codePositive : WOp → Bool
  | .writeHeader c => c != 0
  | .write _ => true
  | .setHeader _ _ => true

/-- Whether every `writeHeader` in the sequence carries a nonzero code (all
HTTP status codes are; the transport rejects others). -/
def codesPositive : List WOp → Bool
  | [] => true
  | op :: rest => codePositive op && codesPositive rest

/-- A concrete request used to instantiate universally quantified theorems. -/
def someRequest : Request := ⟨"GET", "/health", "", "192.0.2.1:5555"⟩

/-! ## Helper lemmas -/

theorem runOps_nil {σ : Type} (W : GoWriter σ) (s : σ) : runOps W s [] = s := rfl

theorem runOps_cons {σ : Type} (W : GoWriter σ) (s : σ) (op : WOp) (ops : List WOp) :
    runOps W s (op :: ops) = runOps W (applyOp W s op) ops := rfl

theorem applyOp_snd {σ : Type} (W : GoWriter σ) (s : ResponseRecorder × σ) (op : WOp) :
    (applyOp (recorderW W) s op).2 = applyOp W s.2 op := by
  cases op <;> rfl

theorem runOps_snd {σ : Type} (W : GoWriter σ) (s : ResponseRecorder × σ) (ops : List WOp) :
    (runOps (recorderW W) s ops).2 = runOps W s.2 ops := by
  induction ops generalizing s with
  | nil => rfl
  | cons op rest ih => rw [runOps_cons, runOps_cons, ih, applyOp_snd]

theorem applyOp_status {σ : Type} (W : GoWriter σ) (s : ResponseRecorder × σ) (op : WOp) :
    (applyOp (recorderW W) s op).1.status = statusStep s.1.status op := by
  cases op <;> rfl

theorem runOps_status {σ : Type} (W : GoWriter σ) (s : ResponseRecorder × σ) (ops : List WOp) :
    (runOps (recorderW W) s ops).1.status = lastStatusFrom s.1.status ops := by
  induction ops generalizing s with
  | nil => rfl
  | cons op rest ih =>
    rw [runOps_cons, ih, applyOp_status]
    rfl

theorem lastStatusFrom_no_set (ops : List WOp) (d : Nat)
    (h : hasStatusSet ops = false) : lastStatusFrom d ops = d := by
  induction ops generalizing d with
  | nil => rfl
  | cons op rest ih =>
    rw [hasStatusSet, Bool.or_eq_false_iff] at h
    cases op with
    | writeHeader c => simp [isStatusSet] at h
    | write b => exact ih d h.2
    | setHeader k v => exact ih d h.2

theorem lastStatusFrom_ne_zero (ops : List WOp) (d : Nat)
    (h1 : codesPositive ops = true) (h2 : hasStatusSet ops = true) :
    lastStatusFrom d ops ≠ 0 := by
  induction ops generalizing d with
  | nil => simp [hasStatusSet] at h2
  | cons op rest ih =>
    rw [codesPositive, Bool.and_eq_true] at h1
    rw [hasStatusSet, Bool.or_eq_true] at h2
    cases op with
    | writeHeader c =>
      have hc : c ≠ 0 := by
        have := h1.1
        rw [codePositive, bne_iff_ne] at this
        exact this
      cases hr : hasStatusSet rest with
      | true =>
        show lastStatusFrom c rest ≠ 0
        exact ih c h1.2 hr
      | false =>
        show lastStatusFrom c rest ≠ 0
        rw [lastStatusFrom_no_set rest c hr]
        exact hc
    | write b =>
      cases h2 with
      | inl h2 => simp [isStatusSet] at h2
      | inr h2 => exact ih d h1.2 h2
    | setHeader k v =>
      cases h2 with
      | inl h2 => simp [isStatusSet] at h2
      | inr h2 => exact ih d h1.2 h2

theorem writeAll_results {σ : Type} (W : GoWriter σ) (re0 : ResponseRecorder)
    (u0 : σ) (bs : List String) :
    (writeAll (recorderW W) (re0, u0) bs).2 = (writeAll W u0 bs).2 := by
  induction bs generalizing re0 u0 with
  | nil => rfl
  | cons b rest ih =>
    show (W.write u0 b).2 :: (writeAll (recorderW W)
        ({ re0 with numBytes := re0.numBytes + b.length }, (W.write u0 b).1) rest).2
      = (W.write u0 b).2 :: (writeAll W (W.write u0 b).1 rest).2
    rw [ih]

theorem writeAll_underlying {σ : Type} (W : GoWriter σ) (re0 : ResponseRecorder)
    (u0 : σ) (bs : List String) :
    (writeAll (recorderW W) (re0, u0) bs).1.2 = (writeAll W u0 bs).1 := by
  induction bs generalizing re0 u0 with
  | nil => rfl
  | cons b rest ih =>
    show (writeAll (recorderW W)
        ({ re0 with numBytes := re0.numBytes + b.length }, (W.write u0 b).1) rest).1.2
      = (writeAll W (W.write u0 b).1 rest).1
    rw [ih]

theorem writeAll_numBytes {σ : Type} (W : GoWriter σ) (re0 : ResponseRecorder)
    (u0 : σ) (bs : List String) :
    (writeAll (recorderW W) (re0, u0) bs).1.1.numBytes
      = re0.numBytes + (bs.map String.length).sum := by
  induction bs generalizing re0 u0 with
  | nil => simp [writeAll]
  | cons b rest ih =>
    show (writeAll (recorderW W)
        ({ re0 with numBytes := re0.numBytes + b.length }, (W.write u0 b).1) rest).1.1.numBytes
      = re0.numBytes + ((b :: rest).map String.length).sum
    rw [ih]
    simp [Nat.add_assoc]

theorem httpError_base (b : BaseWriter) (msg : String) (code : Nat) :
    (httpError baseW b msg code).body = b.body ++ (msg ++ "\x0a")
    ∧ (httpError baseW b msg code).committed
        = (if b.committed = none then some code else b.committed) := by
  cases hc : b.committed with
  | none => simp [httpError, baseW, hc]
  | some c => simp [httpError, baseW, hc]

/-! ## Claims -/

/-- C1: the claim says exactly one access-log line is emitted per request,
panic or not, thanks to a scoped-exit (deferred) emission. The source's
`accesslog` places the log statement after a plain `next.ServeHTTP` call
with no `defer`, so a panicking handler unwinds past it: the request below
whose handler panics yields zero access-log lines, while the same request
with a normally returning handler yields exactly one. -/
theorem accesslog_line_lost_on_panic :
    (processRequest ⟨[], some (.other "boom")⟩ someRequest emptyBase).accessLogs = []
    ∧ (processRequest ⟨[], none⟩ someRequest emptyBase).accessLogs.length = 1 :=
  ⟨rfl, rfl⟩

/-- C3: over any underlying writer, a sequence of recorder `Write` calls adds
exactly the sum of the lengths of the written chunks to `numBytes`
(regardless of what counts or errors the underlying writer reports), every
call returns exactly the `(n, err)` pair the underlying writer produced, and
the underlying writer advances exactly as if written to directly. -/
theorem responseRecorder_write_accounting {σ : Type} (W : GoWriter σ)
    (re0 : ResponseRecorder) (u0 : σ) (bs : List String) :
    (writeAll (recorderW W) (re0, u0) bs).1.1.numBytes
        = re0.numBytes + (bs.map String.length).sum
    ∧ (writeAll (recorderW W) (re0, u0) bs).2 = (writeAll W u0 bs).2
    ∧ (writeAll (recorderW W) (re0, u0) bs).1.2 = (writeAll W u0 bs).1 :=
  ⟨writeAll_numBytes W re0 u0 bs, writeAll_results W re0 u0 bs,
    writeAll_underlying W re0 u0 bs⟩

/-- C4 counterexample: the claim says the recorded status is set at most by
the first status-setting call and later calls leave it unchanged. On the
source's recorder, after `WriteHeader 200` the recorded status is 200, yet a
subsequent `WriteHeader 500` changes it to 500. -/
theorem responseRecorder_status_overwrite_cex :
    (runOps (recorderW baseW) (⟨0, 0⟩, emptyBase) [WOp.writeHeader 200]).1.status = 200
    ∧ (runOps (recorderW baseW) (⟨0, 0⟩, emptyBase)
        [WOp.writeHeader 200, WOp.writeHeader 500]).1.status = 500
    ∧ (500 : Nat) ≠ 200 :=
  ⟨rfl, rfl, by decide⟩

/-- C4 amended: the recorder's `status` field holds the code of the *last*
`WriteHeader` call of the request (0 when there was none): every call
overwrites it, and the underlying writer's automatic status on a first body
write is never captured (body writes leave `status` untouched). -/
theorem responseRecorder_status_last_write_wins {σ : Type} (W : GoWriter σ)
    (u0 : σ) (ops : List WOp) :
    (runOps (recorderW W) (⟨0, 0⟩, u0) ops).1.status = lastStatusFrom 0 ops :=
  runOps_status W (⟨0, 0⟩, u0) ops

/-- C8: a panic with the sentinel `http.ErrAbortHandler` is swallowed
silently by `recovery`: no error-level log (hence no stack capture), no
fallback 500 write — the transport state and the recovery recorder are
exactly what the downstream writes left them. -/
theorem recovery_abort_silent (ops : List WOp) (req : Request) (b0 : BaseWriter) :
    (processRequest ⟨ops, some .errAbortHandler⟩ req b0).panicLogs = []
    ∧ (processRequest ⟨ops, some .errAbortHandler⟩ req b0).base
        = (downstream ops b0).2.2
    ∧ (processRequest ⟨ops, some .errAbortHandler⟩ req b0).recoveryRec
        = (downstream ops b0).2.1 :=
  ⟨rfl, rfl, rfl⟩

/-- C2: on a non-sentinel panic, when `recovery`'s recorder shows no status
yet recorded it emits `http.Error(w, panic-string, 500)` — the transport body
grows by the panic value's string form (with the newline `http.Error`
appends) and the 500 commits whenever the transport was still uncommitted;
when a status was already recorded it performs no additional write and the
recorder keeps the status it had (no second status recorded). -/
theorem recovery_panic_response (ops : List WOp) (msg : String) (req : Request)
    (b0 : BaseWriter) :
    ((downstream ops b0).2.1.status = 0 →
        (processRequest ⟨ops, some (.other msg)⟩ req b0).base.body
            = (downstream ops b0).2.2.body ++ (msg ++ "\x0a")
        ∧ (processRequest ⟨ops, some (.other msg)⟩ req b0).base.committed
            = (if (downstream ops b0).2.2.committed = none then some 500
               else (downstream ops b0).2.2.committed))
    ∧ ((downstream ops b0).2.1.status ≠ 0 →
        (processRequest ⟨ops, some (.other msg)⟩ req b0).base
            = (downstream ops b0).2.2
        ∧ (processRequest ⟨ops, some (.other msg)⟩ req b0).recoveryRec
            = (downstream ops b0).2.1) := by
  constructor
  · intro h
    have hb : processRequest ⟨ops, some (.other msg)⟩ req b0
        = ⟨(downstream ops b0).1, (downstream ops b0).2.1,
            httpError baseW (downstream ops b0).2.2 msg 500, [],
            [⟨msg, true, req.method, req.path, req.query, req.ip⟩]⟩ := by
      simp [processRequest, h]
    rw [hb]
    exact httpError_base (downstream ops b0).2.2 msg 500
  · intro h
    have hb : processRequest ⟨ops, some (.other msg)⟩ req b0
        = ⟨(downstream ops b0).1, (downstream ops b0).2.1,
            (downstream ops b0).2.2, [],
            [⟨msg, true, req.method, req.path, req.query, req.ip⟩]⟩ := by
      simp [processRequest, h]
    rw [hb]
    exact ⟨rfl, rfl⟩

/-- C2 witness: a handler that writes nothing and panics with value `boom`
over a fresh transport: the recorder shows status 0, so the 500 fallback is
emitted with the panic string as the body. -/
theorem recovery_panic_response_witness :
    (processRequest ⟨[], some (.other "boom")⟩ someRequest emptyBase).base.body
        = (downstream [] emptyBase).2.2.body ++ ("boom" ++ "\x0a")
    ∧ (processRequest ⟨[], some (.other "boom")⟩ someRequest emptyBase).base.committed
        = (if (downstream [] emptyBase).2.2.committed = none then some 500
           else (downstream [] emptyBase).2.2.committed) :=
  (recovery_panic_response [] "boom" someRequest emptyBase).1 (by decide)

/-- C5: the health handler computes its body once from the build-time version
and build-info settings; every request is answered with committed status 200,
Content-Type `application/json`, and the body encoded from that
construction-time data — so any two requests receive byte-for-byte identical
bodies. -/
theorem handleGetHealth_static_response (version : String)
    (settings : List (String × String)) (req1 req2 : Request) :
    (handleGetHealth version settings baseW req1 emptyBase).committed = some 200
    ∧ getAssoc (handleGetHealth version settings baseW req1 emptyBase).headers
        "Content-Type" = some "application/json"
    ∧ (handleGetHealth version settings baseW req1 emptyBase).body
        = encodeHealthBody (buildHealthBody version settings)
    ∧ (handleGetHealth version settings baseW req1 emptyBase).body
        = (handleGetHealth version settings baseW req2 emptyBase).body :=
  ⟨rfl, rfl, rfl, rfl⟩

/-- C6: the openapi handler answers every request with committed status 200,
Content-Type `text/plain`, `Access-Control-Allow-Origin: *`, and a body that
is exactly the embedded document blob. -/
theorem handleGetOpenapi_serves_embedded (blob : String) (req : Request) :
    (handleGetOpenapi blob baseW req emptyBase).committed = some 200
    ∧ getAssoc (handleGetOpenapi blob baseW req emptyBase).headers
        "Content-Type" = some "text/plain"
    ∧ getAssoc (handleGetOpenapi blob baseW req emptyBase).headers
        "Access-Control-Allow-Origin" = some "*"
    ∧ (handleGetOpenapi blob baseW req emptyBase).body = blob :=
  ⟨rfl, rfl, rfl, rfl⟩

/-- C7 counterexample: the claim says a failing health-body serialization
surfaces to the client as a 500. But the handler calls `WriteHeader(200)`
before encoding, so when the encode step fails the transport has already
committed 200 and the `http.Error(..., 500)` that follows cannot change the
client-visible status: it stays 200, not 500. -/
theorem health_encode_failure_not_500_cex :
    (healthServe (Except.error "boom") baseW emptyBase).committed = some 200
    ∧ (healthServe (Except.error "boom") baseW emptyBase).committed ≠ some 500 :=
  ⟨rfl, by decide⟩

/-- C7 amended: when the health body's serialization fails, the handler
invokes the 500 error helper with the error text, but because status 200 was
already committed before encoding, the client-visible status remains 200 and
the error text (with the trailing newline of `http.Error`) becomes the
response body. -/
theorem health_encode_failure_after_commit (e : String) :
    (healthServe (Except.error e) baseW emptyBase).committed = some 200
    ∧ (healthServe (Except.error e) baseW emptyBase).body = e ++ "\x0a" :=
  ⟨rfl, rfl⟩

/-- C9: the `accesslog` recorder delegates every `WriteHeader` to the
`recovery` recorder underneath it, so the two recorders always agree on the
status, and (for real, nonzero status codes) the recovery recorder's status
is nonzero exactly when the downstream performed some `WriteHeader` call —
which is what makes `recovery`'s `status == 0` commit check sound. -/
theorem recorder_chain_status_delegation (ops : List WOp) (b0 : BaseWriter)
    (h : codesPositive ops = true) :
    (downstream ops b0).1.status = (downstream ops b0).2.1.status
    ∧ ((downstream ops b0).2.1.status ≠ 0 ↔ hasStatusSet ops = true) := by
  have houter : (downstream ops b0).1.status = lastStatusFrom 0 ops :=
    runOps_status (recorderW baseW) (⟨0, 0⟩, ⟨0, 0⟩, b0) ops
  have hdeleg : (downstream ops b0).2
      = runOps (recorderW baseW) (⟨0, 0⟩, b0) ops :=
    runOps_snd (recorderW baseW) (⟨0, 0⟩, ⟨0, 0⟩, b0) ops
  have hinner : (downstream ops b0).2.1.status = lastStatusFrom 0 ops := by
    rw [hdeleg]
    exact runOps_status baseW (⟨0, 0⟩, b0) ops
  refine ⟨by rw [houter, hinner], ?_⟩
  rw [hinner]
  constructor
  · intro hne
    cases hs : hasStatusSet ops with
    | true => rfl
    | false => exact absurd (lastStatusFrom_no_set ops 0 hs) hne
  · intro hs
    exact lastStatusFrom_ne_zero ops 0 h hs

/-- C9 witness: a handler that only calls `WriteHeader 201`: both recorders
record 201, and the recovery recorder's status is nonzero. -/
theorem recorder_chain_status_delegation_witness :
    (downstream [WOp.writeHeader 201] emptyBase).1.status
        = (downstream [WOp.writeHeader 201] emptyBase).2.1.status
    ∧ ((downstream [WOp.writeHeader 201] emptyBase).2.1.status ≠ 0
        ↔ hasStatusSet [WOp.writeHeader 201] = true) :=
  recorder_chain_status_delegation [WOp.writeHeader 201] emptyBase (by decide)

/-- C10: when `recovery` emits its fallback 500 after a non-sentinel panic,
it writes through the original response writer, not through its recorder:
both recorders are exactly as the downstream writes left them — the recovery
recorder's status is still 0 and its byte count excludes the 500 body — while
the transport body gains the fallback text. -/
theorem recovery_fallback_bypasses_recorder (ops : List WOp) (msg : String)
    (req : Request) (b0 : BaseWriter)
    (h : (downstream ops b0).2.1.status = 0) :
    (processRequest ⟨ops, some (.other msg)⟩ req b0).recoveryRec
        = (downstream ops b0).2.1
    ∧ (processRequest ⟨ops, some (.other msg)⟩ req b0).accessRec
        = (downstream ops b0).1
    ∧ (processRequest ⟨ops, some (.other msg)⟩ req b0).recoveryRec.status = 0
    ∧ (processRequest ⟨ops, some (.other msg)⟩ req b0).recoveryRec.numBytes
        = (downstream ops b0).2.1.numBytes
    ∧ (processRequest ⟨ops, some (.other msg)⟩ req b0).base.body
        = (downstream ops b0).2.2.body ++ (msg ++ "\x0a") := by
  have hb : processRequest ⟨ops, some (.other msg)⟩ req b0
      = ⟨(downstream ops b0).1, (downstream ops b0).2.1,
          httpError baseW (downstream ops b0).2.2 msg 500, [],
          [⟨msg, true, req.method, req.path, req.query, req.ip⟩]⟩ := by
    simp [processRequest, h]
  rw [hb]
  exact ⟨rfl, rfl, h, rfl, (httpError_base (downstream ops b0).2.2 msg 500).1⟩

/-- C10 witness: a handler that writes a 5-byte body without ever calling
`WriteHeader` and then panics: the fallback fires, the recovery recorder
still shows status 0 and 5 counted bytes, and the transport body gains the
fallback text. -/
theorem recovery_fallback_bypasses_recorder_witness :
    (processRequest ⟨[WOp.write "hello"], some (.other "boom")⟩ someRequest
        emptyBase).recoveryRec
        = (downstream [WOp.write "hello"] emptyBase).2.1
    ∧ (processRequest ⟨[WOp.write "hello"], some (.other "boom")⟩ someRequest
        emptyBase).accessRec
        = (downstream [WOp.write "hello"] emptyBase).1
    ∧ (processRequest ⟨[WOp.write "hello"], some (.other "boom")⟩ someRequest
        emptyBase).recoveryRec.status = 0
    ∧ (processRequest ⟨[WOp.write "hello"], some (.other "boom")⟩ someRequest
        emptyBase).recoveryRec.numBytes
        = (downstream [WOp.write "hello"] emptyBase).2.1.numBytes
    ∧ (processRequest ⟨[WOp.write "hello"], some (.other "boom")⟩ someRequest
        emptyBase).base.body
        = (downstream [WOp.write "hello"] emptyBase).2.2.body ++ ("boom" ++ "\x0a") :=
  recovery_fallback_bypasses_recorder [WOp.write "hello"] "boom" someRequest
    emptyBase (by decide)
